import Mathlib

/-!
Verification of the sailhouse Python SDK (`src/sailhouse/client.py`) against
its natural-language specification.

The client code is shallowly embedded: JSON values become an inductive type,
HTTP traffic becomes an explicit `World` record (a scripted sequence of
responses plus the trace of requests sent), and each client method becomes a
pure function `SailhouseClient → args → World → result × SailhouseClient × World`.
The `subscribe` polling loop (an infinite `while True` in Python, cancelled
externally) becomes a fuel-indexed run function over a per-iteration step.
-/

namespace Sailhouse

/-- JSON values, the payloads exchanged with the remote service. -/
inductive Json : Type where
  | null : Json
  | bool (b : Bool) : Json
  | num (n : Int) : Json
  | str (s : String) : Json
  | arr (xs : List Json) : Json
  | obj (fields : List (String × Json)) : Json

/-- Dictionary lookup on a JSON object, `body[key]` / `body.get(key)`. -/
def Json.getField : Json → String → Option Json
  | .obj fields, k => fields.lookup k
  | _, _ => none

/-- Python truthiness of a JSON value (`if metadata:` on a dict is false for
the empty dict). -/
def Json.truthy : Json → Bool
  | .null => false
  | .bool b => b
  | .num n => n != 0
  | .str s => s != ""
  | .arr xs => !xs.isEmpty
  | .obj fields => !fields.isEmpty

/-- Errors a client method can raise: `SailhouseError(msg)` from
`exceptions.py`, or a Python `KeyError` from a missing body field. -/
inductive PyError : Type where
  | sailhouse (msg : String) : PyError
  | keyError (key : String) : PyError

/-- Class constant `SailhouseClient.BASE_URL` (client.py line 44). -/
def BASE_URL : String := "https://api.sailhouse.dev"

/-- The client state set up by `SailhouseClient.__init__`: token, timeout,
`base_url` (argument or the class constant), and the session headers. -/
structure SailhouseClient : Type where
  token : String
  timeout : Rat
  base_url : String
  headers : List (String × String)

/-- `SailhouseClient.__init__(token, timeout=5.0, base_url=None)`:
stores the token and timeout, sets `self.base_url = base_url or BASE_URL`,
and installs the Authorization and x-source session headers. -/
def mkClient (token : String) (timeout : Rat) (base_url : Option String) :
    SailhouseClient :=
  { token := token
    timeout := timeout
    base_url := base_url.getD BASE_URL
    headers := [("Authorization", token), ("x-source", "sailhouse-python")] }

/-- An HTTP response as the `requests` session delivers it: status code,
parsed JSON body (`response.json()`), and raw text (`response.text`). -/
structure HttpResponse : Type where
  statusCode : Nat
  body : Json
  text : String

/-- An HTTP request issued through the session. -/
structure Request : Type where
  method : String
  url : String
  params : List (String × String)
  jsonBody : Option Json

/-- The transport world: a script of responses the server will return (indexed
by how many requests have been sent so far) and the trace of requests sent. -/
structure World : Type where
  script : Nat → HttpResponse
  cursor : Nat
  sent : List Request

/-- One network call: record the request, consume the next scripted response. -/
def httpSend (req : Request) (w : World) : HttpResponse × World :=
  (w.script w.cursor,
   { script := w.script, cursor := w.cursor + 1, sent := w.sent ++ [req] })

/-- An `Event` (client.py lines 15-33): id, data, and the `_topic`,
`_subscription`, `_client` back-reference fields used by `ack`. -/
structure Event : Type where
  id : String
  data : Json
  topic : String
  subscription : String
  client : SailhouseClient

/-- `GetEventsResponse` (client.py lines 36-40). -/
structure GetEventsResponse : Type where
  events : List Event
  offset : Int
  limit : Int

/-- The URL built by `get_events` (client.py line 79). The f-string reads
`self.BASE_URL`, which resolves to the class constant: `__init__` assigns
only the lowercase `self.base_url`, never shadowing `BASE_URL`. -/
def getEventsUrl (_self : SailhouseClient) (topic subscription : String) : String :=
  BASE_URL ++ "/topics/" ++ topic ++ "/subscriptions/" ++ subscription ++ "/events"

/-- The URL built by `publish` (client.py line 113); `self.BASE_URL` is the
class constant, as for `getEventsUrl`. -/
def publishUrl (_self : SailhouseClient) (topic : String) : String :=
  BASE_URL ++ "/topics/" ++ topic ++ "/events"

/-- The URL built by `acknowledge_message` (client.py line 139); `self.BASE_URL`
is the class constant, as for `getEventsUrl`. -/
def acknowledgeUrl (_self : SailhouseClient) (topic subscription event_id : String) : String :=
  BASE_URL ++ "/topics/" ++ topic ++ "/subscriptions/" ++ subscription ++
    "/events/" ++ event_id

/-- Construction of one `Event` from a JSON element of `data['events']`
(client.py lines 88-94): reads `e['id']` and `e['data']` (KeyError when
missing; the id is a string per the API schema) and tags the event with the
originating topic, subscription and client. -/
def parseEvent (c : SailhouseClient) (topic subscription : String) (j : Json) :
    Except PyError Event :=
  match j.getField "id" with
  | none => .error (.keyError "id")
  | some idv =>
    match j.getField "data" with
    | none => .error (.keyError "data")
    | some d =>
      match idv with
      | .str s =>
        .ok { id := s, data := d, topic := topic, subscription := subscription, client := c }
      | _ => .error (.keyError "id")

/-- The list comprehension over `data['events']` (client.py lines 87-96). -/
def parseEvents (c : SailhouseClient) (topic subscription : String) :
    List Json → Except PyError (List Event)
  | [] => .ok []
  | j :: rest =>
    match parseEvent c topic subscription j with
    | .error e => .error e
    | .ok ev =>
      match parseEvents c topic subscription rest with
      | .error e => .error e
      | .ok evs => .ok (ev :: evs)

/-- `data.get(key, 0)` for the integer `offset` / `limit` fields. -/
def jsonIntField (j : Json) (k : String) : Int :=
  match j.getField k with
  | some (.num n) => n
  | _ => 0

/-- `get_events` (client.py lines 61-102): builds the query params, GETs the
events URL, raises on a non-200 status, otherwise parses the events list and
the offset/limit fields (0 when absent). The method assigns no client
attribute, so the client component of the result is the input client. -/
def get_events (c : SailhouseClient) (topic subscription : String)
    (limit : Option Int) (offset : Option Int)
    (time_window : Option String) (w : World) :
    Except PyError GetEventsResponse × SailhouseClient × World :=
  let params :=
    (match limit with | some l => [("limit", toString l)] | none => []) ++
    (match offset with | some o => [("offset", toString o)] | none => []) ++
    (match time_window with | some t => [("time_window", t)] | none => [])
  let pr := httpSend { method := "GET", url := getEventsUrl c topic subscription,
                       params := params, jsonBody := none } w
  let response := pr.1
  if response.statusCode ≠ 200 then
    (.error (.sailhouse ("Failed to get events: " ++ toString response.statusCode)),
     c, pr.2)
  else
    match response.body.getField "events" with
    | some (.arr js) =>
      match parseEvents c topic subscription js with
      | .error e => (.error e, c, pr.2)
      | .ok evs =>
        (.ok { events := evs,
               offset := jsonIntField response.body "offset",
               limit := jsonIntField response.body "limit" }, c, pr.2)
    | _ => (.error (.keyError "events"), c, pr.2)

/-- The request body built by `publish` (client.py lines 115-119): always
`data`, plus `send_at` when a scheduled time is given (a datetime is always
truthy) and `metadata` when the metadata dict is truthy (non-empty). -/
def publishBody (data : Json) (scheduled_time : Option String)
    (metadata : Option Json) : Json :=
  Json.obj ([("data", data)] ++
    (match scheduled_time with | some t => [("send_at", Json.str t)] | none => []) ++
    (match metadata with
     | some m => if m.truthy then [("metadata", m)] else []
     | none => []))

/-- `publish` (client.py lines 104-130): POSTs the body to the topic events
URL; a status other than 201 raises `SailhouseError` with the status code and
response text in the message. No client attribute is assigned, so the client
component of the result is the input client. -/
def publish (c : SailhouseClient) (topic : String) (data : Json)
    (scheduled_time : Option String) (metadata : Option Json)
    (w : World) : Except PyError Unit × SailhouseClient × World :=
  let pr := httpSend { method := "POST", url := publishUrl c topic, params := [],
                       jsonBody := some (publishBody data scheduled_time metadata) } w
  if pr.1.statusCode ≠ 201 then
    (.error (.sailhouse ("Failed to publish message: " ++ toString pr.1.statusCode ++
        " - " ++ pr.1.text)), c, pr.2)
  else (.ok (), c, pr.2)

/-- `acknowledge_message` (client.py lines 132-144): POSTs to the event URL;
a status outside {200, 204} raises `SailhouseError`. No client attribute is
assigned, so the client component of the result is the input client. -/
def acknowledge_message (c : SailhouseClient) (topic subscription event_id : String)
    (w : World) : Except PyError Unit × SailhouseClient × World :=
  let pr := httpSend { method := "POST",
                       url := acknowledgeUrl c topic subscription event_id,
                       params := [], jsonBody := none } w
  if pr.1.statusCode = 200 ∨ pr.1.statusCode = 204 then (.ok (), c, pr.2)
  else
    (.error (.sailhouse ("Failed to acknowledge message: " ++
        toString pr.1.statusCode)), c, pr.2)

/-- `Event.ack` (client.py lines 27-33): delegates to
`self._client.acknowledge_message(self._topic, self._subscription, self.id)`. -/
def Event.ack (e : Event) (w : World) :
    Except PyError Unit × SailhouseClient × World :=
  acknowledge_message e.client e.topic e.subscription e.id w

/-- Modelled from the spec: the single-event `pull(topic, subscription)`
operation is absent from `client.py` under src (only `test/client_test.py`
calls it). Per the spec it GETs the single-pull endpoint
`/topics/t/subscriptions/s/events/next`, maps a 204 response to absent,
a 200 response to an `Event` built from the `id`/`data` body fields and
tagged with the originating topic, subscription and client, and any other
status to an error carrying the status code. -/
def pull (c : SailhouseClient) (topic subscription : String) (w : World) :
    Except PyError (Option Event) × SailhouseClient × World :=
  let url := BASE_URL ++ "/topics/" ++ topic ++ "/subscriptions/" ++ subscription ++
    "/events/next"
  let pr := httpSend { method := "GET", url := url, params := [], jsonBody := none } w
  let response := pr.1
  if response.statusCode = 204 then (.ok none, c, pr.2)
  else if response.statusCode = 200 then
    match parseEvent c topic subscription response.body with
    | .ok e => (.ok (some e), c, pr.2)
    | .error err => (.error err, c, pr.2)
  else
    (.error (.sailhouse ("Failed to pull event: " ++ toString response.statusCode)),
     c, pr.2)

/-!
The `subscribe` polling loop (client.py lines 146-168):

```
while True:
    try:
        events = await self.get_events(topic, subscription)
        for event in events.events:
            await handler(event)
        await asyncio.sleep(polling_interval)
    except Exception as e:
        if on_error:
            on_error(e)
        if exit_on_error:
            break
        continue
```

The loop is embedded generically over the event type `Ev` and the error type
`Err`: the outcome of each iteration's `self.get_events(topic, subscription)`
call is an oracle `fetches : Nat → Except Err (List Ev)` (an exception or the
batch `events.events`), the handler is `Ev → Except Err Unit` (ok or raise),
and `on_error` is an optional `Err → Except Err Unit` (its own call may
raise). External cancellation of the infinite loop is modelled by fuel: a run
of fuel `n` observes at most `n` iterations and ends `cancelled` when the
fuel runs out with the loop still live.
-/

/-- The `subscribe` keyword configuration: `polling_interval`, `on_error`,
`exit_on_error`. The handler callbacks may themselves raise. -/
structure Config (Err : Type) : Type where
  polling_interval : Rat
  on_error : Option (Err → Except Err Unit)
  exit_on_error : Bool

/-- How one loop iteration ends: fall through to the next iteration
(`cont`, covering both the normal path and the `continue` statement), leave
the loop via `break` (`exit`), or let an exception escape the loop
(`raised`, possible only from the `on_error` call inside the `except`
block, which no further `try` protects). -/
inductive IterOutcome (Err : Type) : Type where
  | cont : IterOutcome Err
  | exit : IterOutcome Err
  | raised (e : Err) : IterOutcome Err

/-- The observable behaviour of one iteration: the events the handler was
invoked on (in dispatch order), the errors `on_error` was invoked on,
whether `asyncio.sleep(polling_interval)` ran, and how the iteration ended. -/
structure IterResult (Ev Err : Type) : Type where
  handlerCalls : List Ev
  onErrorCalls : List Err
  slept : Bool
  outcome : IterOutcome Err

/-- The `for event in events.events: await handler(event)` loop: dispatches
the batch in order, stopping at the first event whose handler raises.
Returns the events actually dispatched (the failing one included) and the
raised error, if any. -/
def dispatchBatch {Ev Err : Type} (handler : Ev → Except Err Unit) :
    List Ev → List Ev × Option Err
  | [] => ([], none)
  | e :: rest =>
    match handler e with
    | .error err => ([e], some err)
    | .ok _ =>
      let r := dispatchBatch handler rest
      (e :: r.1, r.2)

/-- The `except Exception as e` block: call `on_error(e)` when configured
(an error raised by `on_error` itself escapes the loop, skipping the
`exit_on_error` check), then `break` when `exit_on_error` else `continue`.
The sleep in the `try` block was skipped, so `slept` is false.
`calls` carries the events dispatched before the failure. -/
def handleError {Ev Err : Type} (cfg : Config Err) (e : Err) (calls : List Ev) :
    IterResult Ev Err :=
  match cfg.on_error with
  | none =>
    { handlerCalls := calls, onErrorCalls := [], slept := false,
      outcome := if cfg.exit_on_error then .exit else .cont }
  | some f =>
    match f e with
    | .error e2 =>
      { handlerCalls := calls, onErrorCalls := [e], slept := false,
        outcome := .raised e2 }
    | .ok _ =>
      { handlerCalls := calls, onErrorCalls := [e], slept := false,
        outcome := if cfg.exit_on_error then .exit else .cont }

/-- One iteration of the `while True` body, given the outcome `fetch` of this
iteration's `get_events` call: on an exception from the fetch, or from the
handler mid-batch, control moves to the `except` block; otherwise the whole
batch is dispatched and the iteration sleeps for the polling interval. -/
def subscribeIteration {Ev Err : Type} (cfg : Config Err)
    (handler : Ev → Except Err Unit) (fetch : Except Err (List Ev)) :
    IterResult Ev Err :=
  match fetch with
  | .error e => handleError cfg e []
  | .ok evs =>
    let r := dispatchBatch handler evs
    match r.2 with
    | some e => handleError cfg e r.1
    | none =>
      { handlerCalls := r.1, onErrorCalls := [], slept := true, outcome := .cont }

/-- The error of a loop iteration, when it has one: the exception raised by
the `get_events` call, or else by the handler somewhere in the batch. -/
def iterError {Ev Err : Type} (handler : Ev → Except Err Unit) :
    Except Err (List Ev) → Option Err
  | .error e => some e
  | .ok evs => (dispatchBatch handler evs).2

/-- How a fuelled run of the loop ends: fuel exhausted with the loop still
live (external cancellation of the infinite loop), `break` reached, or an
exception escaped the loop. -/
inductive RunEnd (Err : Type) : Type where
  | cancelled : RunEnd Err
  | exited : RunEnd Err
  | raised (e : Err) : RunEnd Err

/-- The observable trace of a fuelled run: how many times `get_events` was
called, every handler dispatch in order, every `on_error` invocation in
order, how many times the inter-iteration sleep ran, and how the run ended. -/
structure RunTrace (Ev Err : Type) : Type where
  fetchCount : Nat
  handlerCalls : List Ev
  onErrorCalls : List Err
  sleeps : Nat
  ending : RunEnd Err

/-- Run the `while True` loop for at most `fuel` iterations, reading the
outcome of the k-th `get_events` call from `fetches k`. -/
def subscribeRun {Ev Err : Type} (cfg : Config Err)
    (handler : Ev → Except Err Unit) (fetches : Nat → Except Err (List Ev)) :
    Nat → RunTrace Ev Err
  | 0 =>
    { fetchCount := 0, handlerCalls := [], onErrorCalls := [], sleeps := 0,
      ending := .cancelled }
  | fuel + 1 =>
    let r := subscribeIteration cfg handler (fetches 0)
    match r.outcome with
    | .exit =>
      { fetchCount := 1, handlerCalls := r.handlerCalls,
        onErrorCalls := r.onErrorCalls, sleeps := if r.slept then 1 else 0,
        ending := .exited }
    | .raised e =>
      { fetchCount := 1, handlerCalls := r.handlerCalls,
        onErrorCalls := r.onErrorCalls, sleeps := if r.slept then 1 else 0,
        ending := .raised e }
    | .cont =>
      let rest := subscribeRun cfg handler (fun k => fetches (k + 1)) fuel
      { fetchCount := 1 + rest.fetchCount,
        handlerCalls := r.handlerCalls ++ rest.handlerCalls,
        onErrorCalls := r.onErrorCalls ++ rest.onErrorCalls,
        sleeps := (if r.slept then 1 else 0) + rest.sleeps,
        ending := rest.ending }

/-- A transport world whose server always answers with the same response and
in which nothing has been sent yet; used to evaluate the client operations on
concrete inputs. -/
def constWorld (status : Nat) (body : Json) (text : String) : World :=
  { script := fun _ => { statusCode := status, body := body, text := text },
    cursor := 0, sent := [] }

/-! ## General lemmas about the loop embedding -/

/-- The `except` block never sleeps: control reached it by skipping the
`asyncio.sleep` call at the end of the `try` block. -/
theorem handleError_slept {Ev Err : Type} (cfg : Config Err) (e : Err)
    (calls : List Ev) : (handleError cfg e calls).slept = false := by
  cases hoe : cfg.on_error with
  | none => simp [handleError, hoe]
  | some f => cases hf : f e <;> simp [handleError, hoe, hf]

/-- The `except` block preserves the record of handler dispatches made before
the failure. -/
theorem handleError_handlerCalls {Ev Err : Type} (cfg : Config Err) (e : Err)
    (calls : List Ev) : (handleError cfg e calls).handlerCalls = calls := by
  cases hoe : cfg.on_error with
  | none => simp [handleError, hoe]
  | some f => cases hf : f e <;> simp [handleError, hoe, hf]

/-- With no `on_error` configured, the `except` block calls no error handler
and ends with `break` or `continue` according to `exit_on_error`. -/
theorem handleError_none {Ev Err : Type} (cfg : Config Err) (e : Err)
    (calls : List Ev) (h : cfg.on_error = none) :
    (handleError cfg e calls).onErrorCalls = ([] : List Err) ∧
    (handleError cfg e calls).outcome =
      (if cfg.exit_on_error then .exit else .cont) := by
  exact ⟨by simp [handleError, h], by simp [handleError, h]⟩

/-- With `on_error` configured, the `except` block invokes it exactly once,
on the iteration's error; when that call returns normally the block ends with
`break` or `continue` according to `exit_on_error`, and when it raises, the
raised error escapes the loop. -/
theorem handleError_some {Ev Err : Type} (cfg : Config Err) (e : Err)
    (calls : List Ev) (f : Err → Except Err Unit) (h : cfg.on_error = some f) :
    (handleError cfg e calls).onErrorCalls = [e] ∧
    (f e = .ok () →
      (handleError cfg e calls).outcome =
        (if cfg.exit_on_error then .exit else .cont)) ∧
    (∀ e2, f e = .error e2 → (handleError cfg e calls).outcome = .raised e2) := by
  refine ⟨by cases hf : f e <;> simp [handleError, h, hf],
    fun hok => by simp [handleError, h, hok],
    fun e3 h3 => by simp [handleError, h, h3]⟩

/-- An iteration that fails (its fetch raised, or its handler raised
mid-batch) runs the `except` block on that error. -/
theorem subscribeIteration_fail {Ev Err : Type} (cfg : Config Err)
    (handler : Ev → Except Err Unit) (fetch : Except Err (List Ev)) (e : Err)
    (h : iterError handler fetch = some e) :
    ∃ calls, subscribeIteration cfg handler fetch = handleError cfg e calls := by
  cases fetch with
  | error e0 =>
    simp [iterError] at h
    exact ⟨[], by rw [h]; rfl⟩
  | ok evs =>
    simp only [iterError] at h
    refine ⟨(dispatchBatch handler evs).1, ?_⟩
    simp [subscribeIteration, h]

/-- An iteration that does not fail dispatches its whole batch, sleeps for the
polling interval, calls no error handler, and falls through to the next
iteration. -/
theorem subscribeIteration_ok {Ev Err : Type} (cfg : Config Err)
    (handler : Ev → Except Err Unit) (fetch : Except Err (List Ev))
    (h : iterError handler fetch = none) :
    (subscribeIteration cfg handler fetch).outcome = .cont ∧
    (subscribeIteration cfg handler fetch).slept = true ∧
    (subscribeIteration cfg handler fetch).onErrorCalls = ([] : List Err) := by
  cases fetch with
  | error e0 => simp [iterError] at h
  | ok evs =>
    simp only [iterError] at h
    refine ⟨?_, ?_, ?_⟩ <;> simp [subscribeIteration, h]

/-! ## Claim theorems -/

/-- Claim C7: `acknowledge_message(topic, subscription, eventId)` returns
successfully exactly when the server responds with status 200 or 204; every
other status raises a `SailhouseError` carrying the status code in its
message. -/
theorem claim_C7_acknowledge (c : SailhouseClient)
    (topic subscription event_id : String) (w : World) :
    ((acknowledge_message c topic subscription event_id w).1 = .ok () ↔
      ((w.script w.cursor).statusCode = 200 ∨ (w.script w.cursor).statusCode = 204)) ∧
    ((acknowledge_message c topic subscription event_id w).1 = .ok () ∨
      (acknowledge_message c topic subscription event_id w).1 =
        .error (.sailhouse ("Failed to acknowledge message: " ++
          toString (w.script w.cursor).statusCode))) := by
  by_cases h : (w.script w.cursor).statusCode = 200 ∨ (w.script w.cursor).statusCode = 204 <;>
    simp [acknowledge_message, httpSend, h]

/-- Claim C8: `Event.ack` delegates to exactly one
`acknowledge_message(self._topic, self._subscription, self.id)` call on the
event's back-referenced client — one POST to the acknowledge URL built from
the topic, subscription and event id the `Event` was created with — and its
behaviour does not depend on the event's payload `data`. -/
theorem claim_C8_event_ack (e : Event) (d : Json) (w : World) :
    e.ack w = acknowledge_message e.client e.topic e.subscription e.id w ∧
    (e.ack w).2.2.sent = w.sent ++
      [{ method := "POST", url := acknowledgeUrl e.client e.topic e.subscription e.id,
         params := [], jsonBody := none }] ∧
    (e.ack w).2.2.cursor = w.cursor + 1 ∧
    Event.ack { e with data := d } w = e.ack w := by
  refine ⟨rfl, ?_, ?_, rfl⟩ <;>
    by_cases h : (w.script w.cursor).statusCode = 200 ∨ (w.script w.cursor).statusCode = 204 <;>
      simp [Event.ack, acknowledge_message, httpSend, h]

/-- Claim C9: the constructor stores the `base_url` argument on the instance,
but the URLs built by `get_events`, `publish` and `acknowledge_message` all
read the class constant `BASE_URL`, so the configured value never affects the
target of any request: the URLs are the same for every client. -/
theorem claim_C9_base_url_ignored (token : String) (timeout : Rat) (u : String)
    (c c2 : SailhouseClient) (topic subscription event_id : String) :
    (mkClient token timeout (some u)).base_url = u ∧
    getEventsUrl c topic subscription = getEventsUrl c2 topic subscription ∧
    publishUrl c topic = publishUrl c2 topic ∧
    acknowledgeUrl c topic subscription event_id =
      acknowledgeUrl c2 topic subscription event_id ∧
    getEventsUrl c topic subscription =
      BASE_URL ++ "/topics/" ++ topic ++ "/subscriptions/" ++ subscription ++
        "/events" ∧
    BASE_URL = "https://api.sailhouse.dev" :=
  ⟨rfl, rfl, rfl, rfl, rfl, rfl⟩

/-- Claim C6: `publish` succeeds exactly when the server answers status 201;
any other status raises a `SailhouseError` whose message carries the status
code (and the response text), and the client is left unchanged. -/
theorem claim_C6_publish (c : SailhouseClient) (topic : String) (data : Json)
    (scheduled_time : Option String) (metadata : Option Json) (w : World) :
    ((publish c topic data scheduled_time metadata w).1 = .ok () ↔
      (w.script w.cursor).statusCode = 201) ∧
    ((publish c topic data scheduled_time metadata w).1 = .ok () ∨
      (publish c topic data scheduled_time metadata w).1 =
        .error (.sailhouse ("Failed to publish message: " ++
          toString (w.script w.cursor).statusCode ++ " - " ++
          (w.script w.cursor).text))) ∧
    (publish c topic data scheduled_time metadata w).2.1 = c := by
  by_cases h : (w.script w.cursor).statusCode = 201 <;>
    simp [publish, httpSend, h]

/-- Claim C1: `pull(topic, subscription)` maps a 204 response to absent (not
an error), maps a success response to an `Event` tagged with the originating
topic and subscription, and raises an error for any other non-success
status. (`pull` is modelled from the spec; it is absent from the `src`
client.) -/
theorem claim_C1_pull_mapping (c : SailhouseClient) (topic subscription : String)
    (w : World) (id : String) (d : Json) :
    ((w.script w.cursor).statusCode = 204 →
      (pull c topic subscription w).1 = .ok none) ∧
    ((w.script w.cursor).statusCode = 200 →
      (w.script w.cursor).body = Json.obj [("id", .str id), ("data", d)] →
      (pull c topic subscription w).1 =
        .ok (some { id := id, data := d, topic := topic,
                    subscription := subscription, client := c })) ∧
    ((w.script w.cursor).statusCode ≠ 204 → (w.script w.cursor).statusCode ≠ 200 →
      (pull c topic subscription w).1 =
        .error (.sailhouse ("Failed to pull event: " ++
          toString (w.script w.cursor).statusCode))) := by
  refine ⟨fun h204 => ?_, fun h200 hbody => ?_, fun h204 h200 => ?_⟩
  · simp [pull, httpSend, h204]
  · simp [pull, httpSend, h200, hbody, parseEvent, Json.getField, List.lookup]
  · simp [pull, httpSend, h204, h200]

/-- Witness for C1: a 204 world yields absent, a 200 world with an
`id`/`data` body yields the tagged event, and a 500 world yields the error. -/
theorem claim_C1_witness :
    (pull (mkClient "tok" 5 none) "t" "s" (constWorld 204 .null "")).1 = .ok none ∧
    (pull (mkClient "tok" 5 none) "t" "s"
        (constWorld 200 (Json.obj [("id", .str "1"), ("data", .null)]) "")).1 =
      .ok (some { id := "1", data := .null, topic := "t", subscription := "s",
                  client := mkClient "tok" 5 none }) ∧
    (pull (mkClient "tok" 5 none) "t" "s" (constWorld 500 .null "")).1 =
      .error (.sailhouse ("Failed to pull event: " ++ toString (500 : Nat))) :=
  ⟨(claim_C1_pull_mapping (mkClient "tok" 5 none) "t" "s" (constWorld 204 .null "")
      "1" .null).1 rfl,
   (claim_C1_pull_mapping (mkClient "tok" 5 none) "t" "s"
      (constWorld 200 (Json.obj [("id", .str "1"), ("data", .null)]) "")
      "1" .null).2.1 rfl rfl,
   (claim_C1_pull_mapping (mkClient "tok" 5 none) "t" "s" (constWorld 500 .null "")
      "1" .null).2.2 (by decide) (by decide)⟩

/-- Counterexample to claim C2 as stated: with `exitOnError = false` and a
fetch that raises on every iteration, a failing iteration transitions
straight back to the next poll. The failing iteration records no sleep yet
continues, and a two-iteration run performs two fetches with zero
inter-iteration sleeps — an error-handling iteration went back to polling
without the configured interval wait. -/
theorem claim_C2_counterexample :
    (subscribeIteration
        { polling_interval := 1, on_error := none, exit_on_error := false }
        (fun _ : Unit => (.ok () : Except Nat Unit)) (.error 3)).slept = false ∧
    (subscribeIteration
        { polling_interval := 1, on_error := none, exit_on_error := false }
        (fun _ : Unit => (.ok () : Except Nat Unit)) (.error 3)).outcome = .cont ∧
    (subscribeRun
        { polling_interval := 1, on_error := none, exit_on_error := false }
        (fun _ : Unit => (.ok () : Except Nat Unit))
        (fun _ => .error 3) 2).fetchCount = 2 ∧
    (subscribeRun
        { polling_interval := 1, on_error := none, exit_on_error := false }
        (fun _ : Unit => (.ok () : Except Nat Unit))
        (fun _ => .error 3) 2).sleeps = 0 :=
  ⟨rfl, rfl, rfl, rfl⟩

/-- Claim C2 (amended): a failing iteration with `exitOnError = false` (whose
`onError`, when configured, returns normally) is followed immediately by the
next poll, with no inter-iteration wait; the `pollingIntervalSeconds` sleep
runs only at the end of non-failing iterations. -/
theorem claim_C2_error_path_skips_wait {Ev Err : Type} (cfg : Config Err)
    (handler : Ev → Except Err Unit) (fetch fetch2 : Except Err (List Ev))
    (e : Err)
    (hfail : iterError handler fetch = some e)
    (hnoexit : cfg.exit_on_error = false)
    (honerr : ∀ f, cfg.on_error = some f → f e = .ok ())
    (hquiet : iterError handler fetch2 = none) :
    (subscribeIteration cfg handler fetch).slept = false ∧
    (subscribeIteration cfg handler fetch).outcome = .cont ∧
    (subscribeIteration cfg handler fetch2).slept = true := by
  obtain ⟨calls, hiter⟩ := subscribeIteration_fail cfg handler fetch e hfail
  refine ⟨by rw [hiter]; exact handleError_slept cfg e calls, ?_,
    (subscribeIteration_ok cfg handler fetch2 hquiet).2.1⟩
  rw [hiter]
  cases hoe : cfg.on_error with
  | none => rw [(handleError_none cfg e calls hoe).2]; simp [hnoexit]
  | some f =>
    rw [(handleError_some cfg e calls f hoe).2.1 (honerr f hoe)]
    simp [hnoexit]

/-- Witness for the amended C2: a failing fetch with no `onError` and
`exitOnError = false` skips the sleep and continues, while an empty-batch
iteration sleeps. -/
theorem claim_C2_witness :
    (subscribeIteration
        { polling_interval := 1, on_error := none, exit_on_error := false }
        (fun _ : Unit => (.ok () : Except Nat Unit)) (.error 5)).slept = false ∧
    (subscribeIteration
        { polling_interval := 1, on_error := none, exit_on_error := false }
        (fun _ : Unit => (.ok () : Except Nat Unit)) (.error 5)).outcome = .cont ∧
    (subscribeIteration
        { polling_interval := 1, on_error := none, exit_on_error := false }
        (fun _ : Unit => (.ok () : Except Nat Unit)) (.ok [])).slept = true :=
  claim_C2_error_path_skips_wait
    { polling_interval := 1, on_error := none, exit_on_error := false }
    (fun _ : Unit => (.ok () : Except Nat Unit)) (.error 5) (.ok []) 5
    rfl rfl (fun _ h => nomatch h) rfl

/-- Counterexample to claim C3 as stated: with `onError` configured to raise,
a failing iteration invokes it once, and the error `onError` raises is not
caught — with fuel to spare and `exitOnError = false` the run nevertheless
ends with that error escaping the subscribe loop. -/
theorem claim_C3_counterexample :
    (subscribeRun
        { polling_interval := 1, on_error := some (fun _ => .error 7),
          exit_on_error := false }
        (fun _ : Unit => (.ok () : Except Nat Unit))
        (fun _ => .error 3) 5).onErrorCalls = [3] ∧
    (subscribeRun
        { polling_interval := 1, on_error := some (fun _ => .error 7),
          exit_on_error := false }
        (fun _ : Unit => (.ok () : Except Nat Unit))
        (fun _ => .error 3) 5).ending = .raised 7 ∧
    (subscribeRun
        { polling_interval := 1, on_error := some (fun _ => .error 7),
          exit_on_error := false }
        (fun _ : Unit => (.ok () : Except Nat Unit))
        (fun _ => .error 3) 5).fetchCount = 1 :=
  ⟨rfl, rfl, rfl⟩

/-- Claim C3 (amended): for every failing iteration with `onError` configured,
`onError` is invoked exactly once with the iteration's error; but an
exception raised by the `onError` callback itself is not caught — it escapes
the loop and propagates out of the subscribe call. -/
theorem claim_C3_on_error_once_propagates {Ev Err : Type} (cfg : Config Err)
    (handler : Ev → Except Err Unit) (fetch : Except Err (List Ev)) (e : Err)
    (f : Err → Except Err Unit)
    (hfail : iterError handler fetch = some e)
    (hf : cfg.on_error = some f) :
    (subscribeIteration cfg handler fetch).onErrorCalls = [e] ∧
    (∀ e2, f e = .error e2 →
      (subscribeIteration cfg handler fetch).outcome = .raised e2) ∧
    (∀ e2 (fetches : Nat → Except Err (List Ev)) (n : Nat),
      fetches 0 = fetch → f e = .error e2 →
      (subscribeRun cfg handler fetches (n + 1)).ending = .raised e2 ∧
      (subscribeRun cfg handler fetches (n + 1)).onErrorCalls = [e]) := by
  obtain ⟨calls, hiter⟩ := subscribeIteration_fail cfg handler fetch e hfail
  have hcalls : (subscribeIteration cfg handler fetch).onErrorCalls = [e] := by
    rw [hiter]; exact (handleError_some cfg e calls f hf).1
  have hraise : ∀ e2, f e = .error e2 →
      (subscribeIteration cfg handler fetch).outcome = .raised e2 := fun e2 h2 => by
    rw [hiter]; exact (handleError_some cfg e calls f hf).2.2 e2 h2
  refine ⟨hcalls, hraise, fun e2 fetches n h0 h2 => ?_⟩
  have hout : (subscribeIteration cfg handler fetch).outcome = .raised e2 :=
    hraise e2 h2
  constructor <;> simp [subscribeRun, h0, hout, hcalls]

/-- Witness for the amended C3: a failing fetch with an `onError` that raises
7 records exactly one `onError` call and a run whose ending is the raised 7. -/
theorem claim_C3_witness :
    (subscribeIteration
        { polling_interval := 1, on_error := some (fun _ => .error 7),
          exit_on_error := false }
        (fun _ : Unit => (.ok () : Except Nat Unit)) (.error 3)).onErrorCalls = [3] ∧
    (subscribeRun
        { polling_interval := 1, on_error := some (fun _ => .error 7),
          exit_on_error := false }
        (fun _ : Unit => (.ok () : Except Nat Unit))
        (fun _ => .error 3) 2).ending = .raised 7 ∧
    (subscribeRun
        { polling_interval := 1, on_error := some (fun _ => .error 7),
          exit_on_error := false }
        (fun _ : Unit => (.ok () : Except Nat Unit))
        (fun _ => .error 3) 2).onErrorCalls = [3] := by
  have h := claim_C3_on_error_once_propagates
    { polling_interval := 1, on_error := some (fun _ => .error 7),
      exit_on_error := false }
    (fun _ : Unit => (.ok () : Except Nat Unit)) (.error 3) 3
    (fun _ => .error 7) rfl rfl
  exact ⟨h.1, (h.2.2 7 (fun _ => .error 3) 1 rfl rfl).1,
    (h.2.2 7 (fun _ => .error 3) 1 rfl rfl).2⟩

/-- Claim C4: with `exit_on_error = true` the loop terminates after exactly
one failing iteration — whatever the polling interval, and wherever the
first failure falls after clean iterations — while an empty fetch result is
not an error: a fetch sequence of one event then an empty batch dispatches
the handler exactly once and the loop proceeds past the empty result
without stopping. -/
theorem claim_C4_exit_on_error :
    (∀ {Ev Err : Type} (cfg : Config Err) (handler : Ev → Except Err Unit)
        (fetches : Nat → Except Err (List Ev)) (k n : Nat) (e : Err),
      cfg.exit_on_error = true →
      (∀ j, j < k → iterError handler (fetches j) = none) →
      iterError handler (fetches k) = some e →
      (∀ g, cfg.on_error = some g → g e = .ok ()) →
      k < n →
      (subscribeRun cfg handler fetches n).ending = .exited ∧
      (subscribeRun cfg handler fetches n).fetchCount = k + 1) ∧
    (∀ {Ev Err : Type} (cfg : Config Err) (handler : Ev → Except Err Unit)
        (fetches : Nat → Except Err (List Ev)) (ev : Ev),
      cfg.exit_on_error = true →
      handler ev = .ok () →
      fetches 0 = .ok [ev] → fetches 1 = .ok [] →
      (subscribeRun cfg handler fetches 2).handlerCalls = [ev] ∧
      (subscribeRun cfg handler fetches 2).fetchCount = 2 ∧
      (subscribeRun cfg handler fetches 2).ending = .cancelled) := by
  constructor
  · intro Ev Err cfg handler fetches k n e hexit hpre hk honerr hkn
    induction k generalizing fetches n with
    | zero =>
      obtain ⟨m, rfl⟩ : ∃ m, n = m + 1 := ⟨n - 1, by omega⟩
      obtain ⟨calls, hiter⟩ := subscribeIteration_fail cfg handler (fetches 0) e hk
      have hout : (subscribeIteration cfg handler (fetches 0)).outcome = .exit := by
        rw [hiter]
        cases hoe : cfg.on_error with
        | none => rw [(handleError_none cfg e calls hoe).2]; simp [hexit]
        | some g =>
          rw [(handleError_some cfg e calls g hoe).2.1 (honerr g hoe)]
          simp [hexit]
      constructor <;> simp [subscribeRun, hout]
    | succ k2 ih =>
      obtain ⟨m, rfl⟩ : ∃ m, n = m + 1 := ⟨n - 1, by omega⟩
      have h0 : iterError handler (fetches 0) = none := hpre 0 (Nat.succ_pos k2)
      have hcont := (subscribeIteration_ok cfg handler (fetches 0) h0).1
      have hrest := ih (fun j => fetches (j + 1)) m
        (fun j hj => hpre (j + 1) (by omega)) hk (by omega)
      refine ⟨?_, ?_⟩ <;> simp [subscribeRun, hcont, hrest.1, hrest.2]
      omega
  · intro Ev Err cfg handler fetches ev hexit hev h0 h1
    have hiter0 : subscribeIteration cfg handler (fetches 0) =
        { handlerCalls := [ev], onErrorCalls := [], slept := true,
          outcome := .cont } := by
      rw [h0]; simp [subscribeIteration, dispatchBatch, hev]
    have hiter1 : subscribeIteration cfg handler (fetches 1) =
        { handlerCalls := [], onErrorCalls := [], slept := true,
          outcome := .cont } := by
      rw [h1]; simp [subscribeIteration, dispatchBatch]
    refine ⟨?_, ?_, ?_⟩ <;>
      simp [subscribeRun, hiter0, hiter1]

/-- Witness for C4: with `exit_on_error = true`, a fetch that raises at once
ends the run `exited` after one fetch; and with the fetch sequence
`[[()], []]` the handler runs once and fuel 2 ends `cancelled`, past the
empty batch. -/
theorem claim_C4_witness :
    ((subscribeRun { polling_interval := 1, on_error := none, exit_on_error := true }
        (fun _ : Unit => (.ok () : Except Nat Unit))
        (fun _ => .error 3) 4).ending = .exited ∧
      (subscribeRun { polling_interval := 1, on_error := none, exit_on_error := true }
        (fun _ : Unit => (.ok () : Except Nat Unit))
        (fun _ => .error 3) 4).fetchCount = 0 + 1) ∧
    ((subscribeRun { polling_interval := 1, on_error := none, exit_on_error := true }
        (fun _ : Unit => (.ok () : Except Nat Unit))
        (fun k => if k = 0 then .ok [()] else .ok []) 2).handlerCalls = [()] ∧
      (subscribeRun { polling_interval := 1, on_error := none, exit_on_error := true }
        (fun _ : Unit => (.ok () : Except Nat Unit))
        (fun k => if k = 0 then .ok [()] else .ok []) 2).fetchCount = 2 ∧
      (subscribeRun { polling_interval := 1, on_error := none, exit_on_error := true }
        (fun _ : Unit => (.ok () : Except Nat Unit))
        (fun k => if k = 0 then .ok [()] else .ok []) 2).ending = .cancelled) :=
  ⟨claim_C4_exit_on_error.1
      { polling_interval := 1, on_error := none, exit_on_error := true }
      (fun _ : Unit => (.ok () : Except Nat Unit)) (fun _ => .error 3) 0 4 3
      rfl (fun j hj => absurd hj (by omega)) rfl (fun g h => nomatch h) (by omega),
   claim_C4_exit_on_error.2
      { polling_interval := 1, on_error := none, exit_on_error := true }
      (fun _ : Unit => (.ok () : Except Nat Unit))
      (fun k => if k = 0 then .ok [()] else .ok []) ()
      rfl rfl rfl rfl⟩

/-- Claim C5: when every fetch returns an empty batch the handler is never
invoked, yet the loop keeps polling at the configured interval until
cancelled: a run observing n iterations performs n fetches and n
inter-iteration sleeps and ends only by cancellation. -/
theorem claim_C5_quiescence {Ev Err : Type} (cfg : Config Err)
    (handler : Ev → Except Err Unit) (fetches : Nat → Except Err (List Ev))
    (h : ∀ k, fetches k = .ok []) (n : Nat) :
    (subscribeRun cfg handler fetches n).handlerCalls = [] ∧
    (subscribeRun cfg handler fetches n).fetchCount = n ∧
    (subscribeRun cfg handler fetches n).sleeps = n ∧
    (subscribeRun cfg handler fetches n).ending = .cancelled := by
  induction n generalizing fetches with
  | zero => exact ⟨rfl, rfl, rfl, rfl⟩
  | succ m ih =>
    have h0 := h 0
    obtain ⟨ih1, ih2, ih3, ih4⟩ := ih (fun k => fetches (k + 1)) (fun k => h (k + 1))
    refine ⟨?_, ?_, ?_, ?_⟩ <;>
      simp [subscribeRun, h0, subscribeIteration, dispatchBatch, ih1, ih2, ih3, ih4] <;>
      omega

/-- Witness for C5: two all-empty iterations perform two fetches (≥ 2 over a
run covering two intervals), two sleeps, no handler call, and end cancelled. -/
theorem claim_C5_witness :
    (subscribeRun { polling_interval := 1, on_error := none, exit_on_error := false }
      (fun _ : Unit => (.ok () : Except Nat Unit)) (fun _ => .ok []) 2).handlerCalls = [] ∧
    (subscribeRun { polling_interval := 1, on_error := none, exit_on_error := false }
      (fun _ : Unit => (.ok () : Except Nat Unit)) (fun _ => .ok []) 2).fetchCount = 2 ∧
    (subscribeRun { polling_interval := 1, on_error := none, exit_on_error := false }
      (fun _ : Unit => (.ok () : Except Nat Unit)) (fun _ => .ok []) 2).sleeps = 2 ∧
    (subscribeRun { polling_interval := 1, on_error := none, exit_on_error := false }
      (fun _ : Unit => (.ok () : Except Nat Unit)) (fun _ => .ok []) 2).ending = .cancelled :=
  claim_C5_quiescence { polling_interval := 1, on_error := none, exit_on_error := false }
    (fun _ : Unit => (.ok () : Except Nat Unit)) (fun _ => .ok [])
    (fun _ => rfl) 2

/-- Claim C10: within one iteration the handler is dispatched to the fetched
batch strictly in order — an all-accepted batch is dispatched whole, in
order — and when the handler accepts the first k events and raises on the
k-th (0-indexed), exactly the first k+1 events are dispatched, the rest of
the batch is skipped, and the whole iteration routes to the `except` block
with the handler's error. -/
theorem claim_C10_batch_dispatch {Ev Err : Type} (handler : Ev → Except Err Unit) :
    (∀ evs : List Ev,
      (∀ j (hj : j < evs.length), handler (evs.get ⟨j, hj⟩) = .ok ()) →
      dispatchBatch handler evs = (evs, none)) ∧
    (∀ (evs : List Ev) (k : Nat) (hk : k < evs.length) (err : Err),
      (∀ j (hj : j < evs.length), j < k → handler (evs.get ⟨j, hj⟩) = .ok ()) →
      handler (evs.get ⟨k, hk⟩) = .error err →
      dispatchBatch handler evs = (evs.take (k + 1), some err) ∧
      ∀ cfg : Config Err, subscribeIteration cfg handler (.ok evs) =
        handleError cfg err (evs.take (k + 1))) := by
  constructor
  · intro evs h
    induction evs with
    | nil => rfl
    | cons e rest ih =>
      have he : handler e = .ok () := h 0 (Nat.succ_pos _)
      have ihr := ih (fun j hj => h (j + 1) (Nat.succ_lt_succ hj))
      simp [dispatchBatch, he, ihr]
  · intro evs
    induction evs with
    | nil => intro k hk; exact absurd hk (by simp)
    | cons e rest ih =>
      intro k hk err hpre hkerr
      cases k with
      | zero =>
        have he : handler e = .error err := hkerr
        refine ⟨by simp [dispatchBatch, he], fun cfg => ?_⟩
        simp [subscribeIteration, dispatchBatch, he]
      | succ k2 =>
        have he : handler e = .ok () := hpre 0 (Nat.succ_pos _) (Nat.succ_pos _)
        have ihr := ih k2 (Nat.lt_of_succ_lt_succ hk) err
          (fun j hj hjk => hpre (j + 1) (Nat.succ_lt_succ hj) (Nat.succ_lt_succ hjk))
          hkerr
        refine ⟨by simp [dispatchBatch, he, ihr.1], fun cfg => ?_⟩
        simp [subscribeIteration, dispatchBatch, he, ihr.1]

/-- Witness for C10: a handler that rejects the value 2 dispatches `[0,1,2]`
out of the batch `[0,1,2,3]` and stops there with error 9, and a batch it
fully accepts is dispatched whole. -/
theorem claim_C10_witness :
    dispatchBatch (fun v : Nat => if v = 2 then (.error 9 : Except Nat Unit) else .ok ())
        [0, 1, 2, 3] = ([0, 1, 2], some 9) ∧
    dispatchBatch (fun v : Nat => if v = 2 then (.error 9 : Except Nat Unit) else .ok ())
        [0, 1] = ([0, 1], none) :=
  ⟨((claim_C10_batch_dispatch
        (fun v : Nat => if v = 2 then (.error 9 : Except Nat Unit) else .ok ())).2
      [0, 1, 2, 3] 2 (by decide) 9
      (fun j hj hjk => by
        match j, hjk with
        | 0, _ => rfl
        | 1, _ => rfl)
      rfl).1,
   (claim_C10_batch_dispatch
        (fun v : Nat => if v = 2 then (.error 9 : Except Nat Unit) else .ok ())).1
      [0, 1]
      (fun j hj => by
        match j, hj with
        | 0, _ => rfl
        | 1, _ => rfl)⟩

end Sailhouse
